import Mathlib

/-!
Verification of the solar-investment ROI application.

The embedding below follows src/check.py (the claims cite both check.py and
app.py; the ROI arithmetic block is identical in the two files, and check.py
additionally has the compare mode that several claims are about).

Monetary and physical quantities are modelled as exact rationals.  The
reference data frame (pandas DataFrame loaded from data.csv) is modelled as a
list of LocationRecord rows; the pandas selections
  df[df['City'] == name].iloc[0]   and   df[df['Country'] == c].iloc[0]
are modelled as first-match lookups returning Option (none models the
IndexError raised by .iloc[0] on an empty selection).  The PDF byte rendering
of create_pdf is purely presentational (spec 4.4) and is abstracted: only
whether a report is produced, and the file name, are carried in the result.
-/

set_option autoImplicit false

namespace Solar

/-- One row of the reference data table data.csv, with the columns read by the
application (Country, City, GHI_Daily, Tariff_USD_kWh, Incentive_Type,
Incentive_Value_USD, Policy_Summary, Local_Currency_Code,
Local_Currency_Symbol, USD_to_Local_Rate, Latitude, Longitude). -/
structure LocationRecord where
  country : String
  city : String
  ghiDaily : ℚ
  tariffUsdKwh : ℚ
  incentiveType : String
  incentiveValueUsd : ℚ
  policySummary : String
  localCurrencyCode : String
  localCurrencySymbol : String
  usdToLocalRate : ℚ
  latitude : ℚ
  longitude : ℚ
  deriving Repr, DecidableEq

/-- The fixed derating constant from check.py line 187. -/
def PERFORMANCE_RATIO : ℚ := 75 / 100

/-- check.py line 200: annual_energy_kwh = system_size_kw * ghi * 365 *
PERFORMANCE_RATIO. -/
def annual_energy_kwh (system_size_kw ghi : ℚ) : ℚ :=
  system_size_kw * ghi * 365 * PERFORMANCE_RATIO

/-- check.py line 201: annual_revenue_usd = annual_energy_kwh * tariff. -/
def annual_revenue_usd (system_size_kw ghi tariff : ℚ) : ℚ :=
  annual_energy_kwh system_size_kw ghi * tariff

/-- check.py lines 203-206: the incentive branch on net system cost. -/
def net_system_cost_usd (system_cost_usd : ℚ) (incentive_type : String)
    (incentive_value_usd : ℚ) : ℚ :=
  if incentive_type = "CAPEX_Subsidy" then system_cost_usd - incentive_value_usd
  else system_cost_usd

/-- check.py line 208: payback_period_years = net_system_cost_usd /
max(0.01, annual_revenue_usd). -/
def payback_period_years (net_system_cost_usd annual_revenue_usd : ℚ) : ℚ :=
  net_system_cost_usd / max (1 / 100) annual_revenue_usd

/-- The result_dict built at check.py lines 231-249, one per processed city.
pdf_bytes (a byte string in the source) is abstracted to a Bool recording
whether a report was generated (it is None in compare mode, line 215-216). -/
structure RoiResult where
  country : String
  city : String
  payback : ℚ
  net_cost : ℚ
  revenue : ℚ
  energy : ℚ
  pdf_produced : Bool
  file_name : String
  incentive_value : ℚ
  incentive_type : String
  ghi : ℚ
  tariff : ℚ
  size : ℚ
  cost : ℚ
  ratio : ℚ
  symbol : String
  currency_code : String
  deriving Repr, DecidableEq

/-- The sidebar and display inputs that are fixed across the per-city loop of
check.py lines 191-250: the selected country, the two numeric inputs, the
compare toggle, and the display-currency settings resolved at lines 180-185. -/
structure CalcInputs where
  selected_country : String
  system_size_kw : ℚ
  system_cost_usd : ℚ
  compare_mode : Bool
  display_rate : ℚ
  display_symbol : String
  display_currency : String
  deriving Repr, DecidableEq

/-- The body of the per-city loop, check.py lines 192-250, applied to the row
city_data selected for the city.  Every field mirrors the corresponding
assignment in the source. -/
def loop_body (inp : CalcInputs) (city_data : LocationRecord) : RoiResult :=
  let ghi := city_data.ghiDaily
  let tariff := city_data.tariffUsdKwh
  let incentive_type := city_data.incentiveType
  let incentive_value_usd := city_data.incentiveValueUsd
  let energy := annual_energy_kwh inp.system_size_kw ghi
  let revenue := annual_revenue_usd inp.system_size_kw ghi tariff
  let net_cost := net_system_cost_usd inp.system_cost_usd incentive_type incentive_value_usd
  let payback := payback_period_years net_cost revenue
  { country := inp.selected_country
    city := city_data.city
    payback := payback
    net_cost := net_cost * inp.display_rate
    revenue := revenue * inp.display_rate
    energy := energy
    pdf_produced := !inp.compare_mode
    file_name := "Solar_Report_" ++ inp.selected_country ++ "_" ++ city_data.city ++ ".pdf"
    incentive_value := incentive_value_usd * inp.display_rate
    incentive_type := incentive_type
    ghi := ghi
    tariff := tariff * inp.display_rate
    size := inp.system_size_kw
    cost := inp.system_cost_usd * inp.display_rate
    ratio := PERFORMANCE_RATIO
    symbol := inp.display_symbol
    currency_code := inp.display_currency }

/-- First row of the data frame whose City column equals the given name:
df[df['City'] == city_name].iloc[0] at check.py line 192.  none models the
IndexError that .iloc[0] raises when no row matches. -/
def city_data : List LocationRecord → String → Option LocationRecord
  | [], _ => none
  | r :: rs, name => if r.city = name then some r else city_data rs name

/-- First row of the data frame whose Country column equals the given name:
df[df['Country'] == selected_country].iloc[0] at check.py line 123. -/
def country_data : List LocationRecord → String → Option LocationRecord
  | [], _ => none
  | r :: rs, name => if r.country = name then some r else country_data rs name

/-- Lookup following the words of spec section 2: the reference data store is
a static table keyed by the (country, city) pair.  Used only to compare with
the lookups the source actually performs. -/
def pair_keyed_lookup : List LocationRecord → String → String → Option LocationRecord
  | [], _, _ => none
  | r :: rs, co, ci =>
      if r.country = co ∧ r.city = ci then some r else pair_keyed_lookup rs co ci

/-- check.py lines 180-185: the display rate and symbol chosen from the
selected display currency, given the local rate and symbol that were read at
lines 123-126 from the first row of the selected country. -/
def display_settings (display_currency : String) (local_rate : ℚ)
    (local_symbol : String) : ℚ × String :=
  if display_currency = "USD" then ((1 : ℚ), "$")
  else (local_rate, local_symbol)

/-- The display rate and symbol as the whole script computes them: the local
currency metadata comes from country_data, the first row of the selected
country (check.py lines 123-126), then lines 180-185 select by currency. -/
def sidebar_display (df : List LocationRecord) (selected_country : String)
    (display_currency : String) : Option (ℚ × String) :=
  (country_data df selected_country).map fun cd =>
    display_settings display_currency cd.usdToLocalRate cd.localCurrencySymbol

/-- The per-city loop at check.py lines 189-250 building all_results: each
city name is looked up by City alone and the loop body is run on the row
found.  A failed lookup (the IndexError from .iloc[0] at line 192) aborts the
whole calculation, modelled by none. -/
def all_results (df : List LocationRecord) (inp : CalcInputs) :
    List String → Option (List RoiResult)
  | [] => some []
  | name :: names =>
      match city_data df name with
      | none => none
      | some r => (all_results df inp names).map fun rs => loop_body inp r :: rs

/-- st.session_state.results_data: None, a single dict, or a list
(check.py lines 33-35, 252-257). -/
inductive ResultsData where
  | empty : ResultsData
  | single : RoiResult → ResultsData
  | batch : List RoiResult → ResultsData
  deriving Repr, DecidableEq

/-- check.py lines 169-177: the list of cities to process, from the compare
toggle, the multiselect (compare mode) and the single-city selectbox. -/
def cities_to_process (compare_mode : Bool) (selected_cities : List String)
    (selected_city : Option String) : List String :=
  if compare_mode then selected_cities
  else
    match selected_city with
    | some c => [c]
    | none => []

/-- The user-visible warnings emitted at check.py lines 171-177 when nothing
is selected. -/
def selection_warnings (compare_mode : Bool) (selected_cities : List String)
    (selected_city : Option String) : List String :=
  if compare_mode then
    if selected_cities.isEmpty then ["Please select at least one city in Compare Mode."]
    else []
  else
    match selected_city with
    | some _ => []
    | none => ["Please select a city."]

/-- The whole Calculate ROI block, check.py lines 164-257: gather the cities
to process and the warnings, run the per-city loop, and save to session state
only when at least one result was produced (line 253); a list in compare mode,
the first dict otherwise (lines 254-257).  none models the run aborting with
an uncaught exception from a failed row lookup. -/
def run_calculation (df : List LocationRecord) (compare_mode : Bool)
    (selected_cities : List String) (selected_city : Option String)
    (inp : CalcInputs) (prior : ResultsData) :
    Option (ResultsData × List String) :=
  let warns := selection_warnings compare_mode selected_cities selected_city
  let names := cities_to_process compare_mode selected_cities selected_city
  match all_results df inp names with
  | none => none
  | some rs =>
      match rs with
      | [] => some (prior, warns)
      | r :: _ =>
          if compare_mode then some (ResultsData.batch rs, warns)
          else some (ResultsData.single r, warns)

/-- check.py lines 23-28, load_lottie_url applied to the outcome of
requests.get: a non-200 status returns None, a 200 status returns the parsed
body.  The Except layer is the requests.get call itself, which raises on a
network failure; load_lottie_url has no handler for that, so the exception
passes through. -/
def load_lottie_url (fetch : Except Unit (Nat × String)) :
    Except Unit (Option String) :=
  match fetch with
  | Except.error e => Except.error e
  | Except.ok (status, body) =>
      if status ≠ 200 then Except.ok none else Except.ok (some body)

/-- One run of the script around a Calculate click: the sidebar performs the
lottie fetch (check.py lines 84-87) before the calculation block runs, so an
exception escaping load_lottie_url aborts the run and no calculation
happens. -/
def run_script (fetch : Except Unit (Nat × String)) (df : List LocationRecord)
    (compare_mode : Bool) (selected_cities : List String)
    (selected_city : Option String) (inp : CalcInputs) (prior : ResultsData) :
    Except Unit (Option String × Option (ResultsData × List String)) :=
  match load_lottie_url fetch with
  | Except.error e => Except.error e
  | Except.ok lottie_json =>
      Except.ok (lottie_json, run_calculation df compare_mode selected_cities selected_city inp prior)

/-- A concrete reference row matching the worked example of spec section 8:
irradiance 5.5 kWh per square meter per day, tariff 0.15 USD per kWh, no
incentive. -/
def exampleLocation : LocationRecord :=
  { country := "India"
    city := "Jaipur"
    ghiDaily := 11 / 2
    tariffUsdKwh := 3 / 20
    incentiveType := "None"
    incentiveValueUsd := 0
    policySummary := "No incentive"
    localCurrencyCode := "INR"
    localCurrencySymbol := "Rs"
    usdToLocalRate := 83
    latitude := 27
    longitude := 76 }

/-- The same row but with a capex subsidy of 1000 USD, matching the second
worked example of spec section 8. -/
def exampleLocationCapex : LocationRecord :=
  { exampleLocation with
      city := "Delhi"
      incentiveType := "CAPEX_Subsidy"
      incentiveValueUsd := 1000
      policySummary := "Capex subsidy" }

/-- A capex-subsidy row whose incentive value exceeds the example system
cost, for exercising the unclamped negative-net-cost path. -/
def exampleLocationBigSubsidy : LocationRecord :=
  { exampleLocation with
      city := "Agra"
      incentiveType := "CAPEX_Subsidy"
      incentiveValueUsd := 7000
      policySummary := "Large capex subsidy" }

/-- The example calculation inputs of spec section 8: 5 kW, 6000 USD, USD
display. -/
def exampleInputs : CalcInputs :=
  { selected_country := "India"
    system_size_kw := 5
    system_cost_usd := 6000
    compare_mode := false
    display_rate := 1
    display_symbol := "$"
    display_currency := "USD" }

/-- Two rows of one country whose currency metadata differ, to probe which
row the sidebar reads currency data from. -/
def rowX1 : LocationRecord :=
  { country := "X"
    city := "P"
    ghiDaily := 4
    tariffUsdKwh := 1 / 10
    incentiveType := "None"
    incentiveValueUsd := 0
    policySummary := "p"
    localCurrencyCode := "LC1"
    localCurrencySymbol := "Rs"
    usdToLocalRate := 2
    latitude := 0
    longitude := 0 }

/-- Second row of country X, with different currency metadata than rowX1. -/
def rowX2 : LocationRecord :=
  { rowX1 with
      city := "Q"
      localCurrencyCode := "LC2"
      localCurrencySymbol := "Fr"
      usdToLocalRate := 3 }

/-- The two-row table for country X. -/
def dfX : List LocationRecord := [rowX1, rowX2]

/-- Inputs selecting country X with the non-USD display currency: the rate
and symbol the script computes come from the first row of country X. -/
def inpX : CalcInputs :=
  { selected_country := "X"
    system_size_kw := 1
    system_cost_usd := 10
    compare_mode := false
    display_rate := 2
    display_symbol := "Rs"
    display_currency := "LC1" }

/-- Two rows in different countries sharing one city name, to probe the
city-only lookup. -/
def rowA : LocationRecord :=
  { country := "A"
    city := "S"
    ghiDaily := 2
    tariffUsdKwh := 1 / 10
    incentiveType := "None"
    incentiveValueUsd := 0
    policySummary := "a"
    localCurrencyCode := "ACU"
    localCurrencySymbol := "a$"
    usdToLocalRate := 1
    latitude := 0
    longitude := 0 }

/-- A row of country B whose city has the same name as rowA of country A but
a different irradiance. -/
def rowB : LocationRecord :=
  { rowA with
      country := "B"
      ghiDaily := 9
      localCurrencyCode := "BCU" }

/-- The table containing the colliding city name S in countries A and B. -/
def dfAB : List LocationRecord := [rowA, rowB]

/-- Inputs selecting country B in USD display. -/
def inpB : CalcInputs :=
  { selected_country := "B"
    system_size_kw := 1
    system_cost_usd := 1000
    compare_mode := true
    display_rate := 1
    display_symbol := "$"
    display_currency := "USD" }

/-- Claim C1, counterexample: at the stated example inputs the annual revenue
computed by the code is exactly 36135/32 = 1129.21875 USD, which is not the
claimed 1129.22; the claimed figure is the two-decimal display rounding, not
the returned value. -/
theorem example_revenue_is_not_112922_over_100 :
    annual_revenue_usd 5 (11 / 2) (3 / 20) = 36135 / 32
    ∧ (36135 / 32 : ℚ) ≠ 112922 / 100 := by
  constructor
  · norm_num [annual_revenue_usd, annual_energy_kwh, PERFORMANCE_RATIO]
  · norm_num

/-- Claim C1, amended: for every location record and every ROI request with
sizeKw > 0 and costUsd > 0, the calculator returns annualEnergyKwh =
sizeKw * irradiance * 365 * 0.75 and annualRevenueUsd = annualEnergyKwh *
tariff; for sizeKw = 5, costUsd = 6000, irradiance = 5.5, tariff = 0.15 and
no incentive it yields annualEnergyKwh = 7528.125 = 60225/8, annualRevenueUsd
= 1129.21875 = 36135/32 (displayed as 1129.22 at two decimals), netCostUsd =
6000 and paybackYears within 0.01 of 5.31. -/
theorem roi_formulas_and_example (inp : CalcInputs) (loc : LocationRecord)
    (_hsize : 0 < inp.system_size_kw) (_hcost : 0 < inp.system_cost_usd) :
    (loop_body inp loc).energy = inp.system_size_kw * loc.ghiDaily * 365 * (75 / 100)
    ∧ annual_revenue_usd inp.system_size_kw loc.ghiDaily loc.tariffUsdKwh
        = annual_energy_kwh inp.system_size_kw loc.ghiDaily * loc.tariffUsdKwh
    ∧ (loop_body inp loc).revenue
        = annual_revenue_usd inp.system_size_kw loc.ghiDaily loc.tariffUsdKwh * inp.display_rate
    ∧ (loop_body exampleInputs exampleLocation).energy = 60225 / 8
    ∧ (loop_body exampleInputs exampleLocation).revenue = 36135 / 32
    ∧ (loop_body exampleInputs exampleLocation).net_cost = 6000
    ∧ |(loop_body exampleInputs exampleLocation).payback - 531 / 100| < 1 / 100 := by
  refine ⟨rfl, rfl, rfl, ?_, ?_, ?_, ?_⟩
  · norm_num [loop_body, annual_energy_kwh, PERFORMANCE_RATIO, exampleInputs, exampleLocation]
  · norm_num [loop_body, annual_revenue_usd, annual_energy_kwh, PERFORMANCE_RATIO,
      exampleInputs, exampleLocation]
  · norm_num [loop_body, net_system_cost_usd, exampleInputs, exampleLocation]
  · norm_num [loop_body, payback_period_years, net_system_cost_usd, annual_revenue_usd,
      annual_energy_kwh, PERFORMANCE_RATIO, exampleInputs, exampleLocation, max_def, abs_lt]

/-- Witness for the amended claim C1 at the example inputs. -/
theorem roi_formulas_and_example_check :
    (0 : ℚ) < 5 ∧ (loop_body exampleInputs exampleLocation).energy = 60225 / 8 := by
  constructor
  · norm_num
  · exact (roi_formulas_and_example exampleInputs exampleLocation
      (by norm_num [exampleInputs]) (by norm_num [exampleInputs])).2.2.2.1

/-- Claim C2: netCostUsd = costUsd - incentiveValueUsd exactly when the
incentive type is the capex subsidy, and netCostUsd = costUsd for every other
incentive type; the stored net_cost field is the display-rate multiple of
that USD quantity. -/
theorem net_cost_incentive_branch (inp : CalcInputs) (loc : LocationRecord) :
    (loc.incentiveType = "CAPEX_Subsidy" →
      net_system_cost_usd inp.system_cost_usd loc.incentiveType loc.incentiveValueUsd
        = inp.system_cost_usd - loc.incentiveValueUsd)
    ∧ (loc.incentiveType ≠ "CAPEX_Subsidy" →
      net_system_cost_usd inp.system_cost_usd loc.incentiveType loc.incentiveValueUsd
        = inp.system_cost_usd)
    ∧ (loop_body inp loc).net_cost
        = net_system_cost_usd inp.system_cost_usd loc.incentiveType loc.incentiveValueUsd
            * inp.display_rate := by
  refine ⟨fun h => ?_, fun h => ?_, rfl⟩
  · simp [net_system_cost_usd, h]
  · simp [net_system_cost_usd, h]

/-- Witness for claim C2, on the capex-subsidy and no-incentive example
rows. -/
theorem net_cost_incentive_branch_check :
    net_system_cost_usd exampleInputs.system_cost_usd exampleLocationCapex.incentiveType
        exampleLocationCapex.incentiveValueUsd
      = exampleInputs.system_cost_usd - exampleLocationCapex.incentiveValueUsd
    ∧ net_system_cost_usd exampleInputs.system_cost_usd exampleLocation.incentiveType
        exampleLocation.incentiveValueUsd = exampleInputs.system_cost_usd :=
  ⟨(net_cost_incentive_branch exampleInputs exampleLocationCapex).1 rfl,
   (net_cost_incentive_branch exampleInputs exampleLocation).2.1 (by decide)⟩

/-- Claim C3: paybackYears equals netCostUsd divided by max(0.01,
annualRevenueUsd); the divisor is always at least 0.01, and paybackYears is
nonnegative whenever netCostUsd is. -/
theorem payback_guard_and_nonneg (inp : CalcInputs) (loc : LocationRecord) :
    (loop_body inp loc).payback
        = net_system_cost_usd inp.system_cost_usd loc.incentiveType loc.incentiveValueUsd
            / max (1 / 100) (annual_revenue_usd inp.system_size_kw loc.ghiDaily loc.tariffUsdKwh)
    ∧ (1 / 100 : ℚ)
        ≤ max (1 / 100) (annual_revenue_usd inp.system_size_kw loc.ghiDaily loc.tariffUsdKwh)
    ∧ (0 ≤ net_system_cost_usd inp.system_cost_usd loc.incentiveType loc.incentiveValueUsd →
        0 ≤ (loop_body inp loc).payback) := by
  refine ⟨rfl, le_max_left _ _, fun h => ?_⟩
  have hpos : (0 : ℚ)
      < max (1 / 100) (annual_revenue_usd inp.system_size_kw loc.ghiDaily loc.tariffUsdKwh) :=
    lt_of_lt_of_le (by norm_num) (le_max_left _ _)
  exact div_nonneg h hpos.le

/-- Witness for claim C3 at the example inputs, where the net cost is the
nonnegative 6000. -/
theorem payback_guard_and_nonneg_check :
    0 ≤ (loop_body exampleInputs exampleLocation).payback :=
  (payback_guard_and_nonneg exampleInputs exampleLocation).2.2
    (by norm_num [net_system_cost_usd, exampleInputs, exampleLocation])

/-- Claim C10: a capex subsidy strictly exceeding the system cost gives a
strictly negative net cost and a strictly negative payback; nothing is
clamped at zero, and the loop still produces a result for the location. -/
theorem oversubsidy_negative_payback (inp : CalcInputs) (loc : LocationRecord)
    (hty : loc.incentiveType = "CAPEX_Subsidy")
    (hgt : inp.system_cost_usd < loc.incentiveValueUsd) :
    net_system_cost_usd inp.system_cost_usd loc.incentiveType loc.incentiveValueUsd < 0
    ∧ (loop_body inp loc).payback < 0
    ∧ (loop_body inp loc).net_cost
        = (inp.system_cost_usd - loc.incentiveValueUsd) * inp.display_rate
    ∧ all_results [loc] inp [loc.city] = some [loop_body inp loc] := by
  have hnet : net_system_cost_usd inp.system_cost_usd loc.incentiveType loc.incentiveValueUsd
      = inp.system_cost_usd - loc.incentiveValueUsd := by
    simp [net_system_cost_usd, hty]
  have hneg : net_system_cost_usd inp.system_cost_usd loc.incentiveType loc.incentiveValueUsd
      < 0 := by
    rw [hnet]; linarith
  refine ⟨hneg, ?_, ?_, ?_⟩
  · have hpos : (0 : ℚ)
        < max (1 / 100) (annual_revenue_usd inp.system_size_kw loc.ghiDaily loc.tariffUsdKwh) :=
      lt_of_lt_of_le (by norm_num) (le_max_left _ _)
    exact div_neg_of_neg_of_pos hneg hpos
  · rw [show (loop_body inp loc).net_cost
        = net_system_cost_usd inp.system_cost_usd loc.incentiveType loc.incentiveValueUsd
            * inp.display_rate from rfl, hnet]
  · simp [all_results, city_data]

/-- Witness for claim C10: a 7000 USD subsidy against a 6000 USD system
cost. -/
theorem oversubsidy_negative_payback_check :
    net_system_cost_usd exampleInputs.system_cost_usd exampleLocationBigSubsidy.incentiveType
        exampleLocationBigSubsidy.incentiveValueUsd < 0
    ∧ (loop_body exampleInputs exampleLocationBigSubsidy).payback < 0 := by
  have h := oversubsidy_negative_payback exampleInputs exampleLocationBigSubsidy rfl
    (by norm_num [exampleInputs, exampleLocationBigSubsidy, exampleLocation])
  exact ⟨h.1, h.2.1⟩

/-- Claim C4, counterexample: with two rows of country X whose exchange rates
differ, the rate the script uses when the selected location is the second
row (city Q) is the first row's rate 2, not the selected location's own rate
3: the converted cost for a 10 USD system is 20, not 10 * 3 = 30. -/
theorem display_rate_not_from_selected_location :
    city_data dfX "Q" = some rowX2
    ∧ sidebar_display dfX "X" "LC1" = some ((2 : ℚ), "Rs")
    ∧ rowX2.usdToLocalRate = 3
    ∧ (loop_body inpX rowX2).cost = 20
    ∧ inpX.system_cost_usd * rowX2.usdToLocalRate = 30
    ∧ (20 : ℚ) ≠ 30 := by
  refine ⟨rfl, rfl, rfl, ?_, ?_, by norm_num⟩
  · norm_num [loop_body, inpX]
  · norm_num [inpX, rowX1, rowX2]

/-- Claim C4, amended: with the USD target the rate is 1 and the symbol is
the dollar sign, so conversion is the identity; otherwise the rate and symbol
are those of the first reference row of the selected country (equal to the
selected location's own only when the country's rows share currency
metadata), and every converted amount is the exact product of the USD amount
and that rate. -/
theorem display_settings_amended (df : List LocationRecord) (country curr : String)
    (cd : LocationRecord) (x : ℚ) (inp : CalcInputs) (loc : LocationRecord)
    (h : country_data df country = some cd) :
    sidebar_display df country "USD" = some ((1 : ℚ), "$")
    ∧ x * (display_settings "USD" cd.usdToLocalRate cd.localCurrencySymbol).1 = x
    ∧ (curr ≠ "USD" →
        sidebar_display df country curr = some (cd.usdToLocalRate, cd.localCurrencySymbol))
    ∧ (loop_body inp loc).cost = inp.system_cost_usd * inp.display_rate
    ∧ (loop_body inp loc).net_cost
        = net_system_cost_usd inp.system_cost_usd loc.incentiveType loc.incentiveValueUsd
            * inp.display_rate
    ∧ (loop_body inp loc).revenue
        = annual_revenue_usd inp.system_size_kw loc.ghiDaily loc.tariffUsdKwh
            * inp.display_rate := by
  refine ⟨?_, ?_, fun hc => ?_, rfl, rfl, rfl⟩
  · simp [sidebar_display, h, display_settings]
  · simp [display_settings]
  · simp [sidebar_display, h, display_settings, hc]

/-- Witness for the amended claim C4 on the two-row country X table. -/
theorem display_settings_amended_check :
    sidebar_display dfX "X" "USD" = some ((1 : ℚ), "$")
    ∧ sidebar_display dfX "X" "LC1" = some (rowX1.usdToLocalRate, rowX1.localCurrencySymbol) := by
  have h := display_settings_amended dfX "X" "LC1" rowX1 7 inpX rowX2 rfl
  exact ⟨h.1, h.2.2.1 (by decide)⟩

/-- Claim C5: for every ordered sequence of selected locations, each
retrievable by its city name, the compare loop returns exactly one result per
input location, in input order, each computed independently by the
single-location loop body. -/
theorem compute_many_order_preserving (df : List LocationRecord) (inp : CalcInputs)
    (ls : List LocationRecord)
    (h : ∀ l ∈ ls, city_data df l.city = some l) :
    all_results df inp (ls.map fun l => l.city) = some (ls.map (loop_body inp)) := by
  induction ls with
  | nil => rfl
  | cons a as ih =>
      have ha := h a (List.mem_cons_self a as)
      have hrest := ih fun l hl => h l (List.mem_cons_of_mem a hl)
      simp [all_results, ha, hrest]

/-- Witness for claim C5 on the two-row country X table. -/
theorem compute_many_order_preserving_check :
    all_results dfX inpX ([rowX1, rowX2].map fun l => l.city)
      = some ([rowX1, rowX2].map (loop_body inpX)) := by
  apply compute_many_order_preserving
  intro l hl
  rcases List.mem_cons.mp hl with rfl | hl
  · rfl
  · rcases List.mem_cons.mp hl with rfl | hl
    · rfl
    · cases hl

/-- Claim C6: an empty compare-mode selection, or no selected city in single
mode, performs no computation: the result list is empty, only a warning is
issued, the run does not abort, and the previously stored result state is
returned untouched. -/
theorem empty_selection_no_computation (df : List LocationRecord) (inp : CalcInputs)
    (prior : ResultsData) :
    run_calculation df true [] none inp prior
        = some (prior, ["Please select at least one city in Compare Mode."])
    ∧ run_calculation df false [] none inp prior = some (prior, ["Please select a city."])
    ∧ all_results df inp (cities_to_process true [] none) = some [] :=
  ⟨rfl, rfl, rfl⟩

/-- Claim C7, counterexample: a network failure of the lottie fetch, modelled
as the exception value of requests.get, aborts the whole script run before
any ROI computation, whereas the same run with a successful fetch completes;
so a network failure is not absorbed. -/
theorem network_failure_aborts_run :
    run_script (Except.error ()) dfX false [] (some "P") inpX ResultsData.empty
        = Except.error ()
    ∧ run_script (Except.ok (200, "anim")) dfX false [] (some "P") inpX ResultsData.empty
        = Except.ok (some "anim",
            run_calculation dfX false [] (some "P") inpX ResultsData.empty)
    ∧ (Except.error () : Except Unit (Option String × Option (ResultsData × List String)))
        ≠ Except.ok (some "anim",
            run_calculation dfX false [] (some "P") inpX ResultsData.empty) :=
  ⟨rfl, rfl, fun hcontra => Except.noConfusion hcontra⟩

/-- Claim C7, amended: a non-success HTTP response of the decorative fetch is
fully absorbed, producing no animation and exactly the same ROI computation
as a successful fetch; an exception raised by the fetch itself, however,
propagates and aborts the run. -/
theorem nonsuccess_fetch_absorbed (status : Nat) (body : String)
    (df : List LocationRecord) (compare_mode : Bool) (selected_cities : List String)
    (selected_city : Option String) (inp : CalcInputs) (prior : ResultsData)
    (h : status ≠ 200) :
    run_script (Except.ok (status, body)) df compare_mode selected_cities selected_city inp prior
      = Except.ok (none,
          run_calculation df compare_mode selected_cities selected_city inp prior)
    ∧ run_script (Except.ok (200, body)) df compare_mode selected_cities selected_city inp prior
      = Except.ok (some body,
          run_calculation df compare_mode selected_cities selected_city inp prior) := by
  constructor
  · simp [run_script, load_lottie_url, h]
  · simp [run_script, load_lottie_url]

/-- Witness for the amended claim C7 with a 404 response. -/
theorem nonsuccess_fetch_absorbed_check :
    run_script (Except.ok (404, "err")) dfX false [] (some "P") inpX ResultsData.empty
      = Except.ok (none, run_calculation dfX false [] (some "P") inpX ResultsData.empty) :=
  (nonsuccess_fetch_absorbed 404 "err" dfX false [] (some "P") inpX
    ResultsData.empty (by decide)).1

/-- Claim C8, counterexample: countries A and B both have a city named S with
different irradiance; for the selected pair (B, S) the row entering the
computation is the first row whose City is S, which is the row of country A,
so the energy differs from what the (B, S) row would give. -/
theorem city_lookup_ignores_country :
    pair_keyed_lookup dfAB "B" "S" = some rowB
    ∧ city_data dfAB "S" = some rowA
    ∧ all_results dfAB inpB ["S"] = some [loop_body inpB rowA]
    ∧ rowA.ghiDaily ≠ rowB.ghiDaily
    ∧ (loop_body inpB rowA).energy ≠ (loop_body inpB rowB).energy := by
  refine ⟨rfl, rfl, rfl, ?_, ?_⟩
  · norm_num [rowA, rowB]
  · norm_num [loop_body, annual_energy_kwh, PERFORMANCE_RATIO, inpB, rowA, rowB]

/-- Claim C8, amended: the row entering the computation is the first table
row whose City column alone matches the selected city (and currency metadata
comes from the first row of the selected country); this agrees with the
(country, city)-keyed row exactly when the selected city name is unique in
the table. -/
theorem unique_city_lookup_agrees (df : List LocationRecord) (r : LocationRecord)
    (hmem : r ∈ df) (huniq : ∀ s ∈ df, s.city = r.city → s = r) :
    city_data df r.city = some r
    ∧ pair_keyed_lookup df r.country r.city = some r := by
  induction df with
  | nil => cases hmem
  | cons a as ih =>
      by_cases hc : a.city = r.city
      · have ha : a = r := huniq a (List.mem_cons_self a as) hc
        subst ha
        exact ⟨by simp [city_data], by simp [pair_keyed_lookup]⟩
      · have hmem2 : r ∈ as := by
          rcases List.mem_cons.mp hmem with rfl | h2
          · exact absurd rfl hc
          · exact h2
        have h2 := ih hmem2 fun s hs => huniq s (List.mem_cons_of_mem a hs)
        exact ⟨by simp [city_data, hc, h2.1], by simp [pair_keyed_lookup, hc, h2.2]⟩

/-- Witness for the amended claim C8: in the country X table every city name
is unique, and both lookups return the selected row. -/
theorem unique_city_lookup_agrees_check :
    city_data dfX rowX2.city = some rowX2
    ∧ pair_keyed_lookup dfX rowX2.country rowX2.city = some rowX2 := by
  apply unique_city_lookup_agrees
  · exact List.mem_cons_of_mem _ (List.mem_cons_self _ _)
  · intro s hs hcity
    rcases List.mem_cons.mp hs with rfl | hs2
    · exact absurd hcity (by decide)
    · rcases List.mem_cons.mp hs2 with rfl | hs3
      · rfl
      · cases hs3

/-- Helper for claim C9: a single failed city lookup makes the whole per-city
loop abort with none. -/
theorem all_results_none_of_missing (df : List LocationRecord) (inp : CalcInputs) :
    ∀ cities : List String, ∀ n ∈ cities, city_data df n = none →
      all_results df inp cities = none := by
  intro cities
  induction cities with
  | nil => intro n hn; cases hn
  | cons a as ih =>
      intro n hn hmiss
      rcases List.mem_cons.mp hn with rfl | hmem
      · simp [all_results, hmiss]
      · cases hcd : city_data df a with
        | none => simp [all_results, hcd]
        | some r => simp [all_results, hcd, ih n hmem hmiss]

/-- Claim C9, counterexample: a batch selection naming the present city S and
a missing city aborts the entire calculation with an uncaught lookup error:
no warning is issued for the missing row, and the present city S is not
computed either. -/
theorem missing_row_aborts_batch :
    run_calculation dfAB true ["S", "Missing"] none inpB ResultsData.empty = none
    ∧ city_data dfAB "S" = some rowA
    ∧ city_data dfAB "Missing" = none
    ∧ selection_warnings true ["S", "Missing"] none = [] :=
  ⟨rfl, rfl, rfl, rfl⟩

/-- Claim C9, amended: no default values are substituted for a missing
reference row, but the failed lookup raises an uncaught error that aborts the
whole batch run: no user-visible warning is issued for it and none of the
remaining selected locations is computed. -/
theorem missing_row_no_skip (df : List LocationRecord) (inp : CalcInputs)
    (cities : List String) (prior : ResultsData) (n : String)
    (hn : n ∈ cities) (hmiss : city_data df n = none) :
    all_results df inp cities = none
    ∧ run_calculation df true cities none inp prior = none := by
  have hall := all_results_none_of_missing df inp cities n hn hmiss
  exact ⟨hall, by simp [run_calculation, selection_warnings, cities_to_process, hall]⟩

/-- Witness for the amended claim C9 on the table with city S and a missing
name. -/
theorem missing_row_no_skip_check :
    all_results dfAB inpB ["S", "Missing"] = none
    ∧ run_calculation dfAB true ["S", "Missing"] none inpB ResultsData.empty = none :=
  missing_row_no_skip dfAB inpB ["S", "Missing"] ResultsData.empty "Missing"
    (by simp) rfl

end Solar
